import Mathlib

/-
Verification of welbornprod/outputcatcher (outputcatcher/catchers.py).

Python strings are modelled as lists of characters (code points), bytes as
lists of naturals.  Machine integers are Python arbitrary-precision ints,
modelled as Int where sign matters (max_length) and Nat for lengths.
-/

namespace OutputCatcher

/-- Python str is a sequence of Unicode code points. -/
abbrev PyStr := List Char

/-- Backslash character, written out to keep escape sequences readable. -/
def bslash : Char := Char.ofNat 92

/-- Single-quote character (code point 39). -/
def squote : Char := Char.ofNat 39

/-- Double-quote character. -/
def dquote : Char := '"'

/-- Hexadecimal digit characters as produced by Python's repr escapes
(lower case).  Out-of-range input (never reached for the arguments we
pass) yields the zero digit. -/
def hexDigitChar (n : Nat) : Char :=
  if n = 0 then '0' else if n = 1 then '1' else if n = 2 then '2'
  else if n = 3 then '3' else if n = 4 then '4' else if n = 5 then '5'
  else if n = 6 then '6' else if n = 7 then '7' else if n = 8 then '8'
  else if n = 9 then '9' else if n = 10 then 'a' else if n = 11 then 'b'
  else if n = 12 then 'c' else if n = 13 then 'd' else if n = 14 then 'e'
  else if n = 15 then 'f' else '0'

/-- True when Python's repr would enclose the string in double quotes:
the string contains a single quote and no double quote. -/
def reprUsesDouble (s : PyStr) : Bool :=
  s.contains squote && !(s.contains dquote)

/-- How Python's repr renders one character of a string (the body between
the enclosing quotes).  Backslash and the chosen quote are
backslash-escaped; newline, carriage return and tab become two-character
escapes; the remaining C0 controls, DEL and the Latin-1 non-printables
(0x7f-0xa0, 0xad) become backslash-x hex escapes.  All other characters
are taken to be printable and stand for themselves (faithful for ASCII
and Latin-1 text, which is all the theorems below use). -/
def reprEscChar (useDouble : Bool) (c : Char) : PyStr :=
  if c = bslash then [bslash, bslash]
  else if useDouble = false ∧ c = squote then [bslash, squote]
  else if c = '\n' then [bslash, 'n']
  else if c = '\r' then [bslash, 'r']
  else if c = '\t' then [bslash, 't']
  else if c.toNat < 32 ∨ c.toNat = 127 ∨ (128 ≤ c.toNat ∧ c.toNat ≤ 160) ∨ c.toNat = 173 then
    [bslash, 'x', hexDigitChar (c.toNat / 16), hexDigitChar (c.toNat % 16)]
  else [c]

/-- catchers.py line 11: escape_output(s) = repr(s)[1:-1].  repr encloses
the escaped body in one quote character at each end, so stripping the
first and last character leaves exactly the escaped body. -/
def escape_output (s : PyStr) : PyStr :=
  (s.map (reprEscChar (reprUsesDouble s))).flatten

/-- An argument passed to StdOutCatcher.write: either a Python str or a
non-str value, abstracted to a tag (only its non-str-ness matters). -/
inductive PyVal where
  | str (s : PyStr)
  | other (tag : Nat)
  deriving DecidableEq

/-- Exceptions raised by the embedded code.  Messages are elided. -/
inductive PyError where
  | typeError
  | fileNotFound
  | timeoutExpired
  deriving DecidableEq

/-- State of a StdOutCatcher / StdErrCatcher (catchers.py lines 153-161).
max_length is a Python int (may be negative, the code guards with
max_length > 0). -/
structure Catcher where
  escaped : Bool
  max_length : Int
  _output : PyStr
  length : Nat
  max_exceeded : Bool
  deriving DecidableEq

/-- StdOutCatcher.__init__ (catchers.py lines 153-161). -/
def initCatcher (escaped : Bool) (max_length : Int) : Catcher :=
  { escaped := escaped, max_length := max_length, _output := [],
    length := 0, max_exceeded := false }

/-- The output property getter (catchers.py lines 185-187). -/
def outputGet (st : Catcher) : PyStr := st._output

/-- The output property setter (catchers.py lines 189-196): stores the
value, escaping it first when self.escaped is truthy. -/
def outputSet (st : Catcher) (value : PyStr) : Catcher :=
  if st.escaped then { st with _output := escape_output value }
  else { st with _output := value }

/-- StdOutCatcher.write (catchers.py lines 198-218).  Returns the raised
exception or the returned int, paired with the object state after the
call (a raise happens before any mutation, so the state is unchanged on
the error path, as in the source). -/
def write (st : Catcher) (v : PyVal) : Except PyError Nat × Catcher :=
  match v with
  | .other _ => (.error .typeError, st)
  | .str s =>
    if s = [] ∨ st.max_exceeded = true then (.ok 0, st)
    else
      let st1 := outputSet st (outputGet st ++ s)
      let st2 :=
        if 0 < st1.max_length ∧ st1.max_length ≤ (st1._output.length : Int) then
          { outputSet st1 (st1._output.take st1.max_length.toNat) with max_exceeded := true }
        else st1
      let st3 := { st2 with length := st2._output.length }
      (.ok s.length, st3)

/-- A sequence of write calls with str arguments, threading the state. -/
def writes : Catcher → List PyStr → Catcher
  | st, [] => st
  | st, s :: rest => writes (write st (.str s)).2 rest

/-- The spec's claimed content for an escaped catcher: display-escaping
applied once to the concatenation of the raw texts. -/
def escapeOnce (ss : List PyStr) : PyStr :=
  escape_output ss.flatten

/-- The content the code actually accumulates for an escaped catcher:
each write re-escapes the already-escaped content with the new text
appended. -/
def escAccum (ss : List PyStr) : PyStr :=
  ss.foldl (fun acc s => escape_output (acc ++ s)) []

/-- True when the string contains a raw control character (C0 or DEL). -/
def hasRawControl (s : PyStr) : Bool :=
  s.any (fun c => c.toNat < 32 || c.toNat = 127)

/-- A process-wide stream handle: either the original OS handle that
sys.__stdout__ keeps pointing at, or a catcher object (identified by a
tag). -/
inductive Handle where
  | original
  | catcher (id : Nat)
  deriving DecidableEq

/-- The piece of the sys module the catchers mutate: the current
sys.stdout binding.  sys.__stdout__ always denotes Handle.original;
nothing in catchers.py ever reassigns it. -/
structure SysHandles where
  stdout : Handle
  deriving DecidableEq

/-- StdOutCatcher.__enter__ (catchers.py lines 163-166):
sys.stdout = self. -/
def stdoutCatcherEnter (id : Nat) (sys : SysHandles) : SysHandles :=
  { sys with stdout := .catcher id }

/-- StdOutCatcher.__exit__ (catchers.py lines 168-171):
sys.stdout = sys.__stdout__, and the False return means exceptions
propagate; the body runs on every exit path, normal or exceptional. -/
def stdoutCatcherExit (sys : SysHandles) : SysHandles :=
  { sys with stdout := .original }

/-- Bytes of a child-process output stream. -/
abbrev ByteStr := List Nat

/-- Splitting a byte stream the way repeated readline calls do: each
line extends up to and including a newline byte (10); the final line may
lack the newline.  An empty stream yields no lines. -/
def pySplitLines : ByteStr → List ByteStr
  | [] => []
  | b :: rest =>
    if b = 10 then [10] :: pySplitLines rest
    else
      match pySplitLines rest with
      | [] => [[b]]
      | l :: ls => (b :: l) :: ls

/-- line.rstrip(b'\n'): removes every trailing newline byte (and only
newline bytes) from the right end. -/
def pyRstripNl : ByteStr → ByteStr
  | [] => []
  | b :: rest =>
    match pyRstripNl rest with
    | [] => if b = 10 then [] else [b]
    | r => b :: r

/-- ProcessOutput._iter_proc_output (catchers.py lines 67-79) applied to
a fully materialised stream: every readline result with its trailing
newline stripped.  The iter sentinel stops exactly at end of stream, so
this is the rstrip image of the readline split. -/
def iterProcOutputLines (stream : ByteStr) : List ByteStr :=
  (pySplitLines stream).map pyRstripNl

/-- b'\n'.join(...) on byte strings. -/
def joinNl : List ByteStr → ByteStr
  | [] => []
  | [l] => l
  | l :: ls => l ++ 10 :: joinNl ls

/-- The bytes ProcessOutput.proc_output (catchers.py lines 115-126)
collects for one stream: the stripped readline lines rejoined with a
single newline byte. -/
def procStreamBytes (stream : ByteStr) : ByteStr :=
  joinNl (iterProcOutputLines stream)

/-- Modelled from the spec wording of C6: a line terminator is a newline
or a carriage-return-newline pair, and stripping a line removes that
whole terminator from its end. -/
def specStripTerminator (l : ByteStr) : ByteStr :=
  let l1 := if l.getLast? = some 10 then l.dropLast else l
  if l1.getLast? = some 13 then l1.dropLast else l1

/-- Modelled from the spec wording of C6: split into lines, strip each
line's terminator (normalizing carriage-return-newline), rejoin with
single newlines. -/
def specNormalizedBytes (stream : ByteStr) : ByteStr :=
  joinNl ((pySplitLines stream).map specStripTerminator)

/-- Removing a single trailing newline byte from a stream, if present;
the closed form of what proc_output actually computes per stream. -/
def dropTrailingNewline : ByteStr → ByteStr
  | [] => []
  | [b] => if b = 10 then [] else [b]
  | b :: rest => b :: dropTrailingNewline rest

/-- The fields of a ProcessOutput object set by __init__ and mutated by
_run / run (catchers.py lines 38-56).  proc is represented by pid. -/
structure ProcOut where
  pid : Option Nat
  returncode : Option Int
  stdout : ByteStr
  stderr : ByteStr
  timeout : Option Nat
  args : List PyStr
  stdin_data : Option ByteStr
  deriving DecidableEq

/-- ProcessOutput.__init__ (catchers.py lines 38-56). -/
def initProcessOutput (args : List PyStr) (stdin_data : Option ByteStr)
    (timeout : Option Nat) : ProcOut :=
  { pid := none, returncode := none, stdout := [], stderr := [],
    timeout := timeout, args := args, stdin_data := stdin_data }

/-- The environment a run interacts with: whether Popen finds the
executable (and the pid it gets), the complete bytes the child writes to
each pipe, the time the child takes to exit after its output is
collected, and its exit code. -/
structure ChildWorld where
  spawn : Option Nat
  outStream : ByteStr
  errStream : ByteStr
  exitDelay : Nat
  exitCode : Int
  deriving DecidableEq

/-- The deadline run passes to proc.wait: `timeout or self.timeout`
(catchers.py line 137).  Python's `or` takes the attribute when the
argument is falsy, i.e. None or 0. -/
def effTimeout (st : ProcOut) (t : Option Nat) : Option Nat :=
  match t with
  | none => st.timeout
  | some 0 => st.timeout
  | some n => some n

/-- ProcessOutput.run (catchers.py lines 128-139) together with _run
(lines 81-101), with mutations in source order.  The first component is
the outcome (the raised exception, if any), the second the object state
after the call, the third whether the code killed the child (it never
does: no kill or terminate call exists in catchers.py).  When Popen
raises FileNotFoundError nothing has been assigned yet, so the state is
returned untouched; when proc.wait raises TimeoutExpired, pid and the
two output buffers have already been assigned but returncode has not. -/
def pyRunEx (st : ProcOut) (w : ChildWorld) (t : Option Nat) :
    Except PyError Unit × ProcOut × Bool :=
  match w.spawn with
  | none => (.error .fileNotFound, st, false)
  | some pid =>
    let st1 := { st with pid := some pid }
    let st2 := { st1 with stdout := procStreamBytes w.outStream,
                          stderr := procStreamBytes w.errStream }
    match effTimeout st t with
    | none => (.ok (), { st2 with returncode := some w.exitCode }, false)
    | some d =>
      if w.exitDelay ≤ d then
        (.ok (), { st2 with returncode := some w.exitCode }, false)
      else
        (.error .timeoutExpired, st2, false)

/-- Which pipe a child write targets. -/
inductive StreamId where
  | out
  | err
  deriving DecidableEq

/-- One pending child write: a number of bytes for one stream. -/
structure ChildOp where
  target : StreamId
  bytes : Nat
  deriving DecidableEq

/-- Where proc_output's reader currently is: catchers.py lines 123-126
first drain stdout to end-of-file, then stderr to end-of-file. -/
inductive DrainPhase where
  | drainOut
  | drainErr
  | allDrained
  deriving DecidableEq

/-- A closed system of child process, the two OS pipes (each with
capacity cap bytes), and the parent running proc_output.  The child runs
its script in order, blocking when the target pipe is full, and exits
(closing both pipes) when the script is done.  The parent's blocking
readline consumes from the phase's pipe, and sees end-of-file exactly
when that pipe is empty and the child has exited. -/
structure PipeSys where
  script : List ChildOp
  outBuf : Nat
  errBuf : Nat
  cap : Nat
  phase : DrainPhase
  deriving DecidableEq

/-- One of the two processes moving. -/
inductive Move where
  | childStep
  | readerStep
  deriving DecidableEq

/-- The child can make progress: it has a pending write and the target
pipe has room for at least one byte. -/
def childEnabled (s : PipeSys) : Bool :=
  match s.script with
  | [] => false
  | op :: _ =>
    match op.target with
    | .out => s.outBuf < s.cap
    | .err => s.errBuf < s.cap

/-- The parent can make progress: the pipe it is blocked reading has
data, or end-of-file has been reached (child exited, pipe empty). -/
def readerEnabled (s : PipeSys) : Bool :=
  match s.phase with
  | .drainOut => 0 < s.outBuf || s.script.isEmpty
  | .drainErr => 0 < s.errBuf || s.script.isEmpty
  | .allDrained => false

/-- Effect of a child step: write as many bytes of the head operation as
fit in the target pipe, dropping the operation once complete. -/
def childDo (s : PipeSys) : PipeSys :=
  match s.script with
  | [] => s
  | op :: rest =>
    match op.target with
    | .out =>
      let room := s.cap - s.outBuf
      if op.bytes ≤ room then { s with outBuf := s.outBuf + op.bytes, script := rest }
      else { s with outBuf := s.cap, script := { op with bytes := op.bytes - room } :: rest }
    | .err =>
      let room := s.cap - s.errBuf
      if op.bytes ≤ room then { s with errBuf := s.errBuf + op.bytes, script := rest }
      else { s with errBuf := s.cap, script := { op with bytes := op.bytes - room } :: rest }

/-- Effect of a parent step: a readline drains the available bytes of
the current pipe, or observes end-of-file and moves to the next phase. -/
def readerDo (s : PipeSys) : PipeSys :=
  match s.phase with
  | .drainOut =>
    if 0 < s.outBuf then { s with outBuf := 0 }
    else { s with phase := .drainErr }
  | .drainErr =>
    if 0 < s.errBuf then { s with errBuf := 0 }
    else { s with phase := .allDrained }
  | .allDrained => s

/-- All moves some scheduler could take from a state. -/
def enabledMoves (s : PipeSys) : List Move :=
  (if childEnabled s then [Move.childStep] else [])
    ++ (if readerEnabled s then [Move.readerStep] else [])

/-- A child that first writes cap + 1 bytes to stderr and then one byte
to stdout before exiting: any child whose stderr output exceeds the pipe
buffer while the parent is still inside the stdout drain behaves like
this. -/
def deadlockScript (cap : Nat) : List ChildOp :=
  [{ target := .err, bytes := cap + 1 }, { target := .out, bytes := 1 }]

/-- Initial state of the closed system for a given pipe capacity. -/
def deadlockInit (cap : Nat) : PipeSys :=
  { script := deadlockScript cap, outBuf := 0, errBuf := 0, cap := cap,
    phase := .drainOut }

end OutputCatcher

namespace OutputCatcher

/-- A write with a str argument on a closed buffer returns 0 and leaves
the state untouched (the early return at catchers.py line 205). -/
lemma write_str_exceeded (st : Catcher) (s : PyStr)
    (hx : st.max_exceeded = true) : write st (.str s) = (.ok 0, st) := by
  simp [write, hx]

/-- No variant of write mutates a closed buffer. -/
lemma write_exceeded_state (st : Catcher) (v : PyVal)
    (hx : st.max_exceeded = true) : (write st v).2 = st := by
  cases v with
  | other tag => rfl
  | str s => rw [write_str_exceeded st s hx]

/-- The output setter on an unescaped catcher stores the value as is. -/
lemma outputSet_unescaped (st : Catcher) (v : PyStr)
    (he : st.escaped = false) : outputSet st v = { st with _output := v } := by
  simp [outputSet, he]

/-- The output setter on an escaped catcher stores the escaped value. -/
lemma outputSet_escaped (st : Catcher) (v : PyStr)
    (he : st.escaped = true) :
    outputSet st v = { st with _output := escape_output v } := by
  simp [outputSet, he]

/-- One write on an open escaped catcher with no length limit: the
stored output becomes the escape of the previous stored output with the
new text appended, and the configuration flags are untouched. -/
lemma write_escaped_free (st : Catcher) (s : PyStr)
    (he : st.escaped = true) (hm : st.max_length = 0)
    (hx : st.max_exceeded = false) (hs : s ≠ []) :
    (write st (.str s)).2 =
      { st with _output := escape_output (st._output ++ s),
                length := (escape_output (st._output ++ s)).length } := by
  obtain ⟨esc, ml, out, len, mx⟩ := st
  dsimp only at he hm hx ⊢
  subst he hm hx
  simp [write, outputSet, outputGet, hs]

/-- One write on an open unescaped catcher with a positive length limit
keeps the stored output within the limit, and preserves the
configuration. -/
lemma write_unescaped_step (st : Catcher) (s : PyStr)
    (he : st.escaped = false) (hm : 0 < st.max_length)
    (h : (st._output.length : Int) ≤ st.max_length) :
    ((write st (.str s)).2._output.length : Int) ≤ st.max_length
    ∧ (write st (.str s)).2.max_length = st.max_length
    ∧ (write st (.str s)).2.escaped = false := by
  obtain ⟨esc, ml, out, len, mx⟩ := st
  dsimp only at he hm h ⊢
  subst he
  by_cases hxs : s = [] ∨ mx = true
  · have hw : write ⟨false, ml, out, len, mx⟩ (.str s)
        = (.ok 0, ⟨false, ml, out, len, mx⟩) := by
      simp [write, hxs]
    rw [hw]
    exact ⟨h, rfl, rfl⟩
  · push_neg at hxs
    obtain ⟨hs, hmx⟩ := hxs
    have hmx2 : mx = false := Bool.eq_false_iff.mpr hmx
    subst hmx2
    by_cases hc : ml ≤ ((out ++ s).length : Int)
    · have hc2 : ml ≤ (out.length : Int) + (s.length : Int) := by
        rw [List.length_append] at hc
        push_cast at hc
        omega
      have hw : (write ⟨false, ml, out, len, false⟩ (.str s)).2
          = ⟨false, ml, (out ++ s).take ml.toNat,
             ((out ++ s).take ml.toNat).length, true⟩ := by
        simp [write, outputSet, outputGet, hs, hm, hc2]
      rw [hw]
      refine ⟨?_, rfl, rfl⟩
      dsimp only
      rw [List.length_take]
      omega
    · have hc2 : ¬ ml ≤ (out.length : Int) + (s.length : Int) := by
        rw [List.length_append] at hc
        push_cast at hc
        omega
      have hw : (write ⟨false, ml, out, len, false⟩ (.str s)).2
          = ⟨false, ml, out ++ s, (out ++ s).length, false⟩ := by
        simp [write, outputSet, outputGet, hs, hm, hc2]
      rw [hw]
      refine ⟨?_, rfl, rfl⟩
      dsimp only
      rw [List.length_append]
      push_neg at hc2
      push_cast
      omega

/-- A sequence of nonempty writes on an open escaped catcher with no
length limit folds the escape-after-append step over the stored
output. -/
lemma writes_escaped_fold (ss : List PyStr) :
    ∀ (st : Catcher), st.escaped = true → st.max_length = 0 →
    st.max_exceeded = false → (∀ s ∈ ss, s ≠ []) →
    (writes st ss)._output
      = ss.foldl (fun acc s => escape_output (acc ++ s)) st._output := by
  induction ss with
  | nil => intro st _ _ _ _; rfl
  | cons s rest ih =>
    intro st he hm hx h
    have hs : s ≠ [] := h s (List.mem_cons_self s rest)
    have hrest : ∀ x ∈ rest, x ≠ [] := fun x hx2 => h x (List.mem_cons_of_mem s hx2)
    have hw := write_escaped_free st s he hm hx hs
    rw [writes, hw]
    rw [ih _ (by cases st; dsimp only; exact he) (by cases st; dsimp only; exact hm)
      (by cases st; dsimp only; exact hx) hrest]
    rfl

/-- A sequence of writes on an unescaped catcher with a positive length
limit keeps the stored output within the limit. -/
lemma writes_unescaped_le (ss : List PyStr) :
    ∀ (st : Catcher), st.escaped = false → 0 < st.max_length →
    (st._output.length : Int) ≤ st.max_length →
    ((writes st ss)._output.length : Int) ≤ st.max_length
    ∧ (writes st ss).max_length = st.max_length := by
  induction ss with
  | nil => intro st _ _ h; exact ⟨h, rfl⟩
  | cons s rest ih =>
    intro st he hm h
    obtain ⟨h1, h2, h3⟩ := write_unescaped_step st s he hm h
    rw [writes]
    obtain ⟨g1, g2⟩ := ih ((write st (.str s)).2) h3 (h2 ▸ hm) (h2 ▸ h1)
    exact ⟨h2 ▸ g1, h2 ▸ g2⟩

/-- The hex digit map yields only digit and lower-case letter
characters for digit inputs. -/
lemma hexDigitChar_ok : ∀ n < 16,
    32 ≤ (hexDigitChar n).toNat ∧ (hexDigitChar n).toNat ≠ 127 := by decide

/-- Membership in a one-element list, unpacked. -/
lemma mem_one {α : Type} {d x : α} (h : d ∈ [x]) : d = x := by
  rw [List.mem_singleton] at h
  exact h

/-- Membership in a two-element list, unpacked. -/
lemma mem_two {α : Type} {d x y : α} (h : d ∈ [x, y]) : d = x ∨ d = y := by
  rw [List.mem_cons, List.mem_singleton] at h
  exact h

/-- Membership in a four-element list, unpacked. -/
lemma mem_four {α : Type} {d x y z w : α} (h : d ∈ [x, y, z, w]) :
    d = x ∨ d = y ∨ d = z ∨ d = w := by
  rw [List.mem_cons, List.mem_cons, List.mem_cons, List.mem_singleton] at h
  exact h

/-- Every character of a repr-escaped character rendering is printable
ASCII or the character itself when it is not a control character: in
all cases, nothing below 32 and never DEL. -/
lemma reprEscChar_no_ctl (u : Bool) (c d : Char)
    (hd : d ∈ reprEscChar u c) : 32 ≤ d.toNat ∧ d.toNat ≠ 127 := by
  unfold reprEscChar at hd
  split at hd
  · rcases mem_two hd with hd | hd <;> subst hd <;> decide
  split at hd
  · rcases mem_two hd with hd | hd <;> subst hd <;> decide
  split at hd
  · rcases mem_two hd with hd | hd <;> subst hd <;> decide
  split at hd
  · rcases mem_two hd with hd | hd <;> subst hd <;> decide
  split at hd
  · rcases mem_two hd with hd | hd <;> subst hd <;> decide
  split at hd
  · rename_i hrange
    have hb : c.toNat < 256 := by omega
    rcases mem_four hd with hd | hd | hd | hd
    · subst hd; decide
    · subst hd; decide
    · subst hd
      exact hexDigitChar_ok (c.toNat / 16) (by omega)
    · subst hd
      exact hexDigitChar_ok (c.toNat % 16) (by omega)
  · rename_i hrange
    rw [mem_one hd]
    omega

/-- Escaped output contains no raw control character. -/
lemma escape_output_no_ctl (s : PyStr) :
    hasRawControl (escape_output s) = false := by
  unfold hasRawControl escape_output
  rw [List.any_eq_false]
  intro c hc
  rw [List.mem_flatten] at hc
  obtain ⟨l, hl, hcl⟩ := hc
  rw [List.mem_map] at hl
  obtain ⟨d, _, hdl⟩ := hl
  subst hdl
  obtain ⟨h1, h2⟩ := reprEscChar_no_ctl (reprUsesDouble s) d c hcl
  simp
  omega

/-- The escape-after-append fold never leaves raw control characters,
whatever clean content it starts from. -/
lemma escAccum_no_ctl_aux (ss : List PyStr) :
    ∀ acc : PyStr, hasRawControl acc = false →
    hasRawControl (ss.foldl (fun a s => escape_output (a ++ s)) acc) = false := by
  induction ss with
  | nil => intro acc ha; exact ha
  | cons s rest ih =>
    intro acc _
    exact ih _ (escape_output_no_ctl _)

/-- The readline split of a nonempty stream has at least one line. -/
lemma pySplitLines_ne_nil (b : Nat) (rest : ByteStr) :
    pySplitLines (b :: rest) ≠ [] := by
  unfold pySplitLines
  split
  · exact List.cons_ne_nil _ _
  · cases h : pySplitLines rest <;> simp

/-- rstrip commutes with consing a non-newline byte. -/
lemma pyRstripNl_cons (b : Nat) (l : ByteStr) (hb : b ≠ 10) :
    pyRstripNl (b :: l) = b :: pyRstripNl l := by
  rw [pyRstripNl]
  cases h : pyRstripNl l with
  | nil => simp [hb]
  | cons r rs => rfl

/-- A byte prepended to the first line moves out of the newline join. -/
lemma joinNl_cons_cons (c : Nat) (x : ByteStr) (xs : List ByteStr) :
    joinNl ((c :: x) :: xs) = c :: joinNl (x :: xs) := by
  cases xs with
  | nil => rfl
  | cons y ys => rfl

/-- C1: proc_output (catchers.py lines 115-126) drains the child's
stdout pipe to end-of-file with blocking readline calls before touching
the stderr pipe, so the collection is the sequential read the spec
forbids, and it deadlocks: in the closed pipe system with capacity 2
(standing for the finite OS pipe buffer) and a child that writes
capacity + 1 bytes to stderr before its stdout write, the only enabled
move from the initial state is the child filling the stderr pipe, after
which no move at all is enabled while the drain is still in its stdout
phase and the child still has pending writes — child and parent block
on each other forever. -/
theorem proc_output_sequential_deadlock :
    enabledMoves (deadlockInit 2) = [Move.childStep]
    ∧ enabledMoves (childDo (deadlockInit 2)) = []
    ∧ (childDo (deadlockInit 2)).phase = DrainPhase.drainOut
    ∧ (childDo (deadlockInit 2)).script ≠ [] := by decide

/-- C2 counterexample: with escaped true, writing the newline string and
then the letter a produces backslash backslash n a (the first write's
escaped content is escaped again by the second write), not the
single-escape of the concatenation, which is backslash n a. -/
theorem escaped_single_escape_ctrex :
    (writes (initCatcher true 0) [['\n'], ['a']])._output
      ≠ escapeOnce [['\n'], ['a']] := by decide

/-- C2 (amended): with escaped true and no length limit, after any
sequence of nonempty text writes the visible output is the left fold
that escapes the previously stored (already escaped) content with the
new raw text appended — escaping is applied at every write, not once to
the concatenation — and the output contains no raw control
character. -/
theorem escaped_accumulated_escape (ss : List PyStr)
    (h : ∀ s ∈ ss, s ≠ []) :
    (writes (initCatcher true 0) ss)._output = escAccum ss
    ∧ hasRawControl ((writes (initCatcher true 0) ss)._output) = false := by
  have h1 := writes_escaped_fold ss (initCatcher true 0) rfl rfl rfl h
  refine ⟨h1, ?_⟩
  rw [h1]
  exact escAccum_no_ctl_aux ss [] rfl

/-- Witness for C2's amended theorem at the counterexample input. -/
theorem escaped_accumulated_escape_witness :
    (writes (initCatcher true 0) [['\n'], ['a']])._output = escAccum [['\n'], ['a']]
    ∧ hasRawControl ((writes (initCatcher true 0) [['\n'], ['a']])._output) = false :=
  escaped_accumulated_escape [['\n'], ['a']] (by decide)

/-- C3 counterexample: with escaped true and max_length 2, one write of
the newline string stores three characters: the truncation at
catchers.py line 214 goes through the output setter, which re-escapes
the truncated text and doubles its backslash past the limit. -/
theorem maxlength_invariant_escaped_ctrex :
    (0 : Int) < 2
    ∧ ¬ (((writes (initCatcher true 2) [['\n']])._output.length : Int) ≤ 2) := by
  decide

/-- C3 (amended): for an unescaped catcher with positive max_length the
length of the output never exceeds max_length after any sequence of
writes; and for every catcher (escaped or not), once max_exceeded is
set no write of any argument changes the state.  With escaped true the
length bound fails, as the counterexample shows. -/
theorem maxlength_invariant_unescaped (m : Int) (ss : List PyStr)
    (st : Catcher) (v : PyVal) (hm : 0 < m) (hx : st.max_exceeded = true) :
    ((writes (initCatcher false m) ss)._output.length : Int) ≤ m
    ∧ (write st v).2 = st := by
  refine ⟨?_, write_exceeded_state st v hx⟩
  have h0 : (((initCatcher false m)._output.length : Int)) ≤ (initCatcher false m).max_length := by
    simp [initCatcher]
    omega
  exact (writes_unescaped_le ss (initCatcher false m) rfl hm h0).1

/-- Witness for C3's amended theorem: three writes against limit 2 stay
within bound, and a closed catcher ignores a further write. -/
theorem maxlength_invariant_unescaped_witness :
    ((writes (initCatcher false 2) [['a'], ['b', 'c'], ['d']])._output.length : Int) ≤ 2
    ∧ (write ⟨false, 2, ['a', 'b'], 2, true⟩ (.str ['x'])).2
        = ⟨false, 2, ['a', 'b'], 2, true⟩ :=
  maxlength_invariant_unescaped 2 [['a'], ['b', 'c'], ['d']]
    ⟨false, 2, ['a', 'b'], 2, true⟩ (.str ['x']) (by decide) rfl

/-- C4 counterexample: with escaped true and max_length 1, writing the
newline string (length 1, which reaches the limit) leaves an output of
length 2, not exactly 1: the truncated single backslash is re-escaped
to two backslashes by the output setter. -/
theorem exact_truncation_escaped_ctrex :
    (1 : Int) ≤ (([('\n' : Char)] : PyStr).length : Int)
    ∧ (0 : Int) < 1
    ∧ (write (initCatcher true 1) (.str ['\n'])).2._output.length ≠ (1 : Int).toNat := by
  decide

/-- C4 (amended): on a fresh unescaped catcher, one write of text at
least max_length long leaves output equal to exactly the first
max_length characters of the text, max_exceeded set, and every
subsequent write returning 0 without changing the state.  With escaped
true the exact-length clause fails, as the counterexample shows. -/
theorem exact_truncation_unescaped (m : Int) (s s2 : PyStr)
    (hm : 0 < m) (hs : m ≤ (s.length : Int)) :
    (write (initCatcher false m) (.str s)).2._output = s.take m.toNat
    ∧ (write (initCatcher false m) (.str s)).2._output.length = m.toNat
    ∧ (write (initCatcher false m) (.str s)).2.max_exceeded = true
    ∧ write ((write (initCatcher false m) (.str s)).2) (.str s2)
        = (.ok 0, (write (initCatcher false m) (.str s)).2) := by
  have hsne : s ≠ [] := by
    intro h0
    subst h0
    simp at hs
    omega
  have hw : (write (initCatcher false m) (.str s)).2
      = ⟨false, m, s.take m.toNat, (s.take m.toNat).length, true⟩ := by
    simp [write, initCatcher, outputSet, outputGet, hsne, hm, hs]
  refine ⟨?_, ?_, ?_, ?_⟩
  · rw [hw]
  · rw [hw]
    dsimp only
    rw [List.length_take]
    omega
  · rw [hw]
  · exact write_str_exceeded _ s2 (by rw [hw])

/-- Witness for C4's amended theorem: limit 2, text of length 3. -/
theorem exact_truncation_unescaped_witness :
    (write (initCatcher false 2) (.str ['a', 'b', 'c'])).2._output
        = (['a', 'b', 'c'] : PyStr).take (2 : Int).toNat
    ∧ (write (initCatcher false 2) (.str ['a', 'b', 'c'])).2._output.length = (2 : Int).toNat
    ∧ (write (initCatcher false 2) (.str ['a', 'b', 'c'])).2.max_exceeded = true
    ∧ write ((write (initCatcher false 2) (.str ['a', 'b', 'c'])).2) (.str ['d'])
        = (.ok 0, (write (initCatcher false 2) (.str ['a', 'b', 'c'])).2) :=
  exact_truncation_unescaped 2 ['a', 'b', 'c'] ['d'] (by decide) (by decide)

/-- C5 counterexample: entering catcher 1, then catcher 2, then exiting
the inner block leaves sys.stdout bound to the original OS handle, not
to catcher 1, the handle that was in place immediately before the inner
entry. -/
theorem nested_restore_ctrex :
    (stdoutCatcherExit (stdoutCatcherEnter 2 (stdoutCatcherEnter 1
        { stdout := Handle.original }))).stdout
      ≠ (stdoutCatcherEnter 1 { stdout := Handle.original }).stdout := by decide

/-- C5 (amended): exiting a catcher block always rebinds sys.stdout to
the process-original handle sys.__stdout__, whatever handle was in
place before entry; since __exit__ returns False this happens on the
exceptional path too.  The immediately-enclosing handle is therefore
not restored under nesting, as the counterexample shows. -/
theorem exit_restores_original_handle (sys : SysHandles) :
    (stdoutCatcherExit sys).stdout = Handle.original := rfl

/-- C6 counterexample: for the child stream a, CR, LF, b, LF the code
collects a, CR, LF, b — the carriage return survives because rstrip
only removes newline bytes — while the spec's terminator-stripping
normalization would collect a, LF, b. -/
theorem crlf_not_normalized_ctrex :
    procStreamBytes [97, 13, 10, 98, 10]
      ≠ specNormalizedBytes [97, 13, 10, 98, 10] := by decide

/-- C6 (amended): the collected byte buffer for a stream equals the
stream with a single trailing newline byte removed: lines are split at
newline bytes only, each line loses only its trailing newline, and the
lines are rejoined with single newlines, so every interior byte —
including carriage returns of CRLF terminators — is preserved
verbatim. -/
theorem proc_stream_bytes_drops_trailing_newline (stream : ByteStr) :
    procStreamBytes stream = dropTrailingNewline stream := by
  induction stream with
  | nil => rfl
  | cons b rest ih =>
    by_cases hb : b = 10
    · subst hb
      cases rest with
      | nil => rfl
      | cons r rs =>
        cases h : pySplitLines (r :: rs) with
        | nil => exact absurd h (pySplitLines_ne_nil r rs)
        | cons l ls =>
          have hstep : procStreamBytes (10 :: r :: rs)
              = 10 :: procStreamBytes (r :: rs) := by
            unfold procStreamBytes iterProcOutputLines
            have hsplit : pySplitLines (10 :: r :: rs)
                = [10] :: pySplitLines (r :: rs) := rfl
            rw [hsplit, h, List.map_cons, List.map_cons]
            have h10 : pyRstripNl [10] = [] := rfl
            rw [h10]
            rfl
          rw [hstep, ih]
          rfl
    · cases rest with
      | nil =>
        have hsplit : pySplitLines [b] = [[b]] := by
          rw [pySplitLines]
          simp [hb]
          rfl
        have hstrip : pyRstripNl [b] = [b] := by
          rw [pyRstripNl]
          simp [hb]
          rfl
        have hlhs : procStreamBytes [b] = [b] := by
          unfold procStreamBytes iterProcOutputLines
          rw [hsplit, List.map_cons, hstrip]
          rfl
        rw [hlhs]
        unfold dropTrailingNewline
        simp [hb]
      | cons r rs =>
        cases h : pySplitLines (r :: rs) with
        | nil => exact absurd h (pySplitLines_ne_nil r rs)
        | cons l ls =>
          have hsplit : pySplitLines (b :: r :: rs) = (b :: l) :: ls := by
            rw [pySplitLines]
            simp [hb, h]
          have hstep : procStreamBytes (b :: r :: rs)
              = b :: procStreamBytes (r :: rs) := by
            unfold procStreamBytes iterProcOutputLines
            rw [hsplit, h, List.map_cons, List.map_cons]
            rw [pyRstripNl_cons b l hb]
            exact joinNl_cons_cons b (pyRstripNl l) (ls.map pyRstripNl)
          rw [hstep, ih]
          rfl

/-- C7: when Popen cannot locate or start the executable, run raises the
not-found error before any field is assigned: the object keeps its
initial empty stdout and stderr byte buffers and its None returncode
and pid, and no child was started (so none is killed). -/
theorem run_not_found_preserves_fields (args : List PyStr)
    (sd : Option ByteStr) (t0 : Option Nat) (w : ChildWorld) (t : Option Nat)
    (h : w.spawn = none) :
    pyRunEx (initProcessOutput args sd t0) w t
      = (.error .fileNotFound, initProcessOutput args sd t0, false)
    ∧ (initProcessOutput args sd t0).stdout = []
    ∧ (initProcessOutput args sd t0).stderr = []
    ∧ (initProcessOutput args sd t0).returncode = none
    ∧ (initProcessOutput args sd t0).pid = none := by
  refine ⟨?_, rfl, rfl, rfl, rfl⟩
  unfold pyRunEx
  rw [h]

/-- Witness for C7 at the command does-not-exist-xyz. -/
theorem run_not_found_preserves_fields_witness :
    pyRunEx (initProcessOutput [['d', 'o', 'e', 's', '-', 'n', 'o', 't', '-',
        'e', 'x', 'i', 's', 't', '-', 'x', 'y', 'z']] none none)
        { spawn := none, outStream := [], errStream := [], exitDelay := 0, exitCode := 0 } none
      = (.error .fileNotFound, initProcessOutput [['d', 'o', 'e', 's', '-', 'n', 'o', 't', '-',
        'e', 'x', 'i', 's', 't', '-', 'x', 'y', 'z']] none none, false)
    ∧ (initProcessOutput [['d', 'o', 'e', 's', '-', 'n', 'o', 't', '-',
        'e', 'x', 'i', 's', 't', '-', 'x', 'y', 'z']] none none).stdout = []
    ∧ (initProcessOutput [['d', 'o', 'e', 's', '-', 'n', 'o', 't', '-',
        'e', 'x', 'i', 's', 't', '-', 'x', 'y', 'z']] none none).stderr = []
    ∧ (initProcessOutput [['d', 'o', 'e', 's', '-', 'n', 'o', 't', '-',
        'e', 'x', 'i', 's', 't', '-', 'x', 'y', 'z']] none none).returncode = none
    ∧ (initProcessOutput [['d', 'o', 'e', 's', '-', 'n', 'o', 't', '-',
        'e', 'x', 'i', 's', 't', '-', 'x', 'y', 'z']] none none).pid = none :=
  run_not_found_preserves_fields [['d', 'o', 'e', 's', '-', 'n', 'o', 't', '-',
        'e', 'x', 'i', 's', 't', '-', 'x', 'y', 'z']] none none
    { spawn := none, outStream := [], errStream := [], exitDelay := 0, exitCode := 0 } none rfl

/-- C8: run waits on the child with the effective deadline (the run
argument unless it is falsy, then the init timeout).  If the child
exits within the deadline, its exit status is recorded in returncode;
otherwise run raises the timeout error, returncode stays None, and the
child is not forcibly terminated — catchers.py contains no kill or
terminate call, so the killed flag of the model is always false. -/
theorem run_wait_timeout (st : ProcOut) (w : ChildWorld) (t : Option Nat)
    (d : Nat) (pid : Nat) (hs : w.spawn = some pid)
    (hd : effTimeout st t = some d) (h0 : st.returncode = none) :
    (pyRunEx st w t).1
        = (if w.exitDelay ≤ d then Except.ok () else Except.error PyError.timeoutExpired)
    ∧ (pyRunEx st w t).2.1.returncode
        = (if w.exitDelay ≤ d then some w.exitCode else none)
    ∧ (pyRunEx st w t).2.2 = false := by
  unfold pyRunEx
  rw [hs, hd]
  by_cases hw : w.exitDelay ≤ d
  · simp [hw]
  · simp [hw, h0]

/-- Witness for C8: deadline 3, child needs 9 time units, so wait times
out, returncode stays None and the child is not killed. -/
theorem run_wait_timeout_witness :
    (pyRunEx (initProcessOutput [] none none)
        { spawn := some 42, outStream := [104], errStream := [], exitDelay := 9, exitCode := 1 }
        (some 3)).1 = Except.error PyError.timeoutExpired
    ∧ (pyRunEx (initProcessOutput [] none none)
        { spawn := some 42, outStream := [104], errStream := [], exitDelay := 9, exitCode := 1 }
        (some 3)).2.1.returncode = none
    ∧ (pyRunEx (initProcessOutput [] none none)
        { spawn := some 42, outStream := [104], errStream := [], exitDelay := 9, exitCode := 1 }
        (some 3)).2.2 = false := by
  have h := run_wait_timeout (initProcessOutput [] none none)
    { spawn := some 42, outStream := [104], errStream := [], exitDelay := 9, exitCode := 1 }
    (some 3) 3 42 rfl rfl rfl
  simpa using h

/-- C9: write with a non-str argument raises the type error at
catchers.py line 200 before touching any state: the outcome pairs the
error with the unchanged catcher, whatever its state. -/
theorem write_non_str_type_error (st : Catcher) (tag : Nat) :
    write st (.other tag) = (.error .typeError, st) := rfl

/-- C10: on an open buffer a nonempty text write returns the full
length of its argument — even when the stored content was truncated to
max_length and characters were dropped — and that value is nonzero, so
0 is returned only for an empty argument or an already-closed
buffer. -/
theorem write_returns_full_length (st : Catcher) (s : PyStr)
    (hx : st.max_exceeded = false) (hs : s ≠ []) :
    (write st (.str s)).1 = .ok s.length ∧ 0 < s.length := by
  refine ⟨?_, List.length_pos.mpr hs⟩
  simp [write, hs, hx]

/-- Witness for C10: limit 2 truncates the stored content of a
three-character write, yet the write still returns 3. -/
theorem write_returns_full_length_witness :
    (write (initCatcher false 2) (.str ['a', 'b', 'c'])).1
        = .ok (['a', 'b', 'c'] : PyStr).length
    ∧ 0 < (['a', 'b', 'c'] : PyStr).length :=
  write_returns_full_length (initCatcher false 2) ['a', 'b', 'c'] rfl (by decide)

end OutputCatcher
